import Mathlib

/-!
Replicated log entries: data model, text codec and attempt bookkeeping

A shallow embedding of `dbms/include/DB/Storages/MergeTree/ReplicatedMergeTreeLogEntry.h`
and of the operations the specification describes around it.

* Part 1 follows the header: the `Type` enumeration, the record
  `ReplicatedMergeTreeLogEntryData` with its default member initialisers, and
  `typeToString`.
* Part 2 holds what the header only declares (the `FuturePartTagger` constructor and
  destructor, `writeText` / `readText` / `toString` / `parse`) or what only the
  specification names (`beginAttempt`, `recordSuccess`, `recordFailure`,
  `recordPostponed`). Each of these definitions says so in its doc comment.

Machine integers: `size_t` fields are natural numbers and `time_t` fields are integers.
The operations on the counters are named by the specification only, and an increment is
taken as the specification states it.
-/

namespace DB

/-! ## Part 1: the header -/

/-- Modelled from the spec: the error kinds. `DB/Core/ErrorCodes.h` is not among the
sources; `LOGICAL_ERROR` is the code the header passes to `Exception` in `typeToString`,
and `MalformedEntry` is the failure of `parse` named in section 7 of the specification. -/
inductive ErrorCodes where
  | LOGICAL_ERROR
  | MalformedEntry
deriving DecidableEq, Repr

/-- The pair `Exception(message, code)` that the header constructs when it throws. -/
structure Exception where
  message : String
  code : ErrorCodes
deriving DecidableEq, Repr

deriving instance DecidableEq for Except

/-- The enumeration `ReplicatedMergeTreeLogEntryData::Type`, in declaration order. -/
inductive LogEntryType where
  | EMPTY
  | GET_PART
  | MERGE_PARTS
  | DROP_RANGE
  | ATTACH_PART
deriving DecidableEq, Repr

/-- The integral value of an enumerator: `EMPTY` is 0 and the others follow in order. -/
def LogEntryType.toNat : LogEntryType → Nat
  | .EMPTY => 0
  | .GET_PART => 1
  | .MERGE_PARTS => 2
  | .DROP_RANGE => 3
  | .ATTACH_PART => 4

/-- The record `struct ReplicatedMergeTreeLogEntryData`; every default below is the
default member initialiser of the header (a `String` and a `Strings` start empty, an
`ExceptionPtr` starts null). -/
structure ReplicatedMergeTreeLogEntryData where
  znode_name : String := ""
  type : LogEntryType := LogEntryType.EMPTY
  source_replica : String := ""
  new_part_name : String := ""
  parts_to_merge : List String := []
  detach : Bool := false
  source_part_name : String := ""
  attach_unreplicated : Bool := false
  currently_executing : Bool := false
  num_tries : Nat := 0
  exception : Option Exception := none
  last_attempt_time : Int := 0
  num_postponed : Nat := 0
  postpone_reason : String := ""
  last_postpone_time : Int := 0
  create_time : Int := 0
  quorum : Nat := 0
deriving DecidableEq, Repr

/-- The member function `typeToString`: a `switch` over `type` with four `case` labels
and a throwing `default`. `DB::toString(type)` prints the integral value of the
enumerator in decimal. -/
def ReplicatedMergeTreeLogEntryData.typeToString
    (r : ReplicatedMergeTreeLogEntryData) : Except Exception String :=
  match r.type with
  | .GET_PART => .ok "GET_PART"
  | .MERGE_PARTS => .ok "MERGE_PARTS"
  | .DROP_RANGE => .ok "DROP_RANGE"
  | .ATTACH_PART => .ok "ATTACH_PART"
  | t => .error ⟨"Unknown log entry type: " ++ toString t.toNat, ErrorCodes.LOGICAL_ERROR⟩

/-- The four real variants: every enumerator other than the sentinel `EMPTY`. -/
def LogEntryType.isReal (t : LogEntryType) : Prop := t ≠ LogEntryType.EMPTY

instance (t : LogEntryType) : Decidable t.isReal := by
  unfold LogEntryType.isReal; infer_instance

/-- The default-constructed record: every member takes its default member
initialiser. -/
def ReplicatedMergeTreeLogEntryData.defaultConstructed : ReplicatedMergeTreeLogEntryData := {}

/-! ## Part 2: what the header declares and the specification describes -/

/-- Modelled from the spec: the source identity handed to `parse`. The header only
forward-declares `struct Stat`; the specification says that it supplies the
`znode_name` and the version stamp of the coordination node. -/
structure Stat where
  znode_name : String
  version : Int
deriving DecidableEq

/-- Modelled from the spec: the part of `StorageReplicatedMergeTree` (forward-declared
in the header) that entries use: the shared future-parts set and the virtual-parts
index of section 6. -/
structure StorageReplicatedMergeTree where
  future_parts : Finset String := ∅
  virtual_parts : Finset String := ∅
deriving DecidableEq

/-- Modelled from the spec: `registerFuturePart(name)` of the storage interface. -/
def StorageReplicatedMergeTree.registerFuturePart (storage : StorageReplicatedMergeTree)
    (name : String) : StorageReplicatedMergeTree :=
  { storage with future_parts := insert name storage.future_parts }

/-- Modelled from the spec: `unregisterFuturePart(name)` of the storage interface. -/
def StorageReplicatedMergeTree.unregisterFuturePart (storage : StorageReplicatedMergeTree)
    (name : String) : StorageReplicatedMergeTree :=
  { storage with future_parts := storage.future_parts.erase name }

/-- Modelled from the spec: `hasFuturePart(name)` of the storage interface. -/
def StorageReplicatedMergeTree.hasFuturePart (storage : StorageReplicatedMergeTree)
    (name : String) : Bool :=
  decide (name ∈ storage.future_parts)

/-- Modelled from the spec: `addVirtualPart(name)` of the storage interface. -/
def StorageReplicatedMergeTree.addVirtualPart (storage : StorageReplicatedMergeTree)
    (name : String) : StorageReplicatedMergeTree :=
  { storage with virtual_parts := insert name storage.virtual_parts }

/-- The data member `part` of `struct FuturePartTagger`; the member `storage` is a
reference, which the embedding passes as explicit state. -/
structure FuturePartTagger where
  part : String
deriving DecidableEq

/-- Modelled from the spec: the constructor `FuturePartTagger(part_, storage_)`, whose
body is not in the header: it registers the name in the future-parts set of the storage
and does not check whether the name is already there. -/
def FuturePartTagger.construct (part_ : String) (storage : StorageReplicatedMergeTree) :
    FuturePartTagger × StorageReplicatedMergeTree :=
  (⟨part_⟩, storage.registerFuturePart part_)

/-- Modelled from the spec: the destructor of `FuturePartTagger`, whose body is not in
the header: it unregisters the name, unconditionally. -/
def FuturePartTagger.destroy (t : FuturePartTagger) (storage : StorageReplicatedMergeTree) :
    StorageReplicatedMergeTree :=
  storage.unregisterFuturePart t.part

/-- Modelled from the spec: a scope guarded by a tagger. The tagger is constructed, the
guarded action runs and either returns a value or fails, and the tagger is destroyed on
the way out of the scope on both paths. -/
def withFuturePartTagger {α : Type} (part_ : String) (storage : StorageReplicatedMergeTree)
    (action : StorageReplicatedMergeTree → Except Exception α) :
    Except Exception α × StorageReplicatedMergeTree :=
  let made := FuturePartTagger.construct part_ storage
  match action made.2 with
  | .ok a => (.ok a, made.1.destroy made.2)
  | .error err => (.error err, made.1.destroy made.2)

/-- The record `struct ReplicatedMergeTreeLogEntry`: the data plus the tagger pointer,
null in a fresh entry. The condition variable `execution_complete` carries no data and
is left out. -/
structure ReplicatedMergeTreeLogEntry extends ReplicatedMergeTreeLogEntryData where
  future_part_tagger : Option FuturePartTagger := none
deriving DecidableEq

/-- The default-constructed entry: default data and a null tagger pointer. -/
def ReplicatedMergeTreeLogEntry.defaultConstructed : ReplicatedMergeTreeLogEntry := {}

namespace ReplicatedMergeTreeLogEntry

/-- Modelled from the spec: `tagPartAsFuture(storage)`, declared in the header without a
body: it constructs a tagger for `new_part_name` and attaches it to the entry. -/
def tagPartAsFuture (e : ReplicatedMergeTreeLogEntry) (storage : StorageReplicatedMergeTree) :
    ReplicatedMergeTreeLogEntry × StorageReplicatedMergeTree :=
  let made := FuturePartTagger.construct e.new_part_name storage
  ({ e with future_part_tagger := some made.1 }, made.2)

/-- Modelled from the spec: `addResultToVirtualParts(storage)`, declared in the header
without a body: it inserts `new_part_name` into the virtual-parts index. -/
def addResultToVirtualParts (e : ReplicatedMergeTreeLogEntry)
    (storage : StorageReplicatedMergeTree) : StorageReplicatedMergeTree :=
  storage.addVirtualPart e.new_part_name

/-- Modelled from the spec: the release of the tagger an entry holds, if it holds one. -/
def releaseTagger (e : ReplicatedMergeTreeLogEntry) (storage : StorageReplicatedMergeTree) :
    ReplicatedMergeTreeLogEntry × StorageReplicatedMergeTree :=
  match e.future_part_tagger with
  | some t => ({ e with future_part_tagger := none }, t.destroy storage)
  | none => (e, storage)

/-- Modelled from the spec: `beginAttempt()` of section 4.4, which the header does not
declare. It requires that the entry is not executing and that its output name is not
reserved; a violation is the `LogicalError` of section 7. Otherwise it sets
`currently_executing`, increments `num_tries`, stamps `last_attempt_time` with the
current time `now` and acquires the tagger. -/
def beginAttempt (e : ReplicatedMergeTreeLogEntry) (storage : StorageReplicatedMergeTree)
    (now : Int) : Except Exception (ReplicatedMergeTreeLogEntry × StorageReplicatedMergeTree) :=
  if e.currently_executing = true then
    .error ⟨"Log entry is already executing", ErrorCodes.LOGICAL_ERROR⟩
  else if storage.hasFuturePart e.new_part_name = true then
    .error ⟨"Tagging already tagged future part " ++ e.new_part_name, ErrorCodes.LOGICAL_ERROR⟩
  else
    .ok (tagPartAsFuture
      { e with
        currently_executing := true
        num_tries := e.num_tries + 1
        last_attempt_time := now } storage)

/-- Modelled from the spec: `recordSuccess()` of section 4.4, which the header does not
declare: it releases the tagger, adds the result to the virtual parts and clears
`currently_executing`. -/
def recordSuccess (e : ReplicatedMergeTreeLogEntry) (storage : StorageReplicatedMergeTree) :
    ReplicatedMergeTreeLogEntry × StorageReplicatedMergeTree :=
  let released := releaseTagger e storage
  ({ released.1 with currently_executing := false },
    addResultToVirtualParts released.1 released.2)

/-- Modelled from the spec: `recordFailure(error)` of section 4.4, which the header does
not declare: it releases the tagger, stores the error and clears
`currently_executing`. -/
def recordFailure (e : ReplicatedMergeTreeLogEntry) (storage : StorageReplicatedMergeTree)
    (error : Exception) : ReplicatedMergeTreeLogEntry × StorageReplicatedMergeTree :=
  let released := releaseTagger e storage
  ({ released.1 with exception := some error, currently_executing := false }, released.2)

/-- Modelled from the spec: `recordPostponed(reason)` of section 4.4, which the header
does not declare: it increments `num_postponed`, stores the reason and stamps
`last_postpone_time` with the current time `now`. -/
def recordPostponed (e : ReplicatedMergeTreeLogEntry) (reason : String) (now : Int) :
    ReplicatedMergeTreeLogEntry :=
  { e with
    num_postponed := e.num_postponed + 1
    postpone_reason := reason
    last_postpone_time := now }

/-- Modelled from the spec: one failed attempt, `beginAttempt` followed by
`recordFailure`, at time `now` and with error `error`. -/
def failedAttempt (st : ReplicatedMergeTreeLogEntry × StorageReplicatedMergeTree)
    (now : Int) (error : Exception) :
    Except Exception (ReplicatedMergeTreeLogEntry × StorageReplicatedMergeTree) :=
  match beginAttempt st.1 st.2 now with
  | .ok started => .ok (recordFailure started.1 started.2 error)
  | .error err => .error err

/-- Modelled from the spec: `n` failed attempts in a row on the same entry; attempt
number `i` happens at time `now i` and fails with `error i`. -/
def failedAttempts (now : Nat → Int) (error : Nat → Exception) :
    Nat → ReplicatedMergeTreeLogEntry × StorageReplicatedMergeTree →
    Except Exception (ReplicatedMergeTreeLogEntry × StorageReplicatedMergeTree)
  | 0, st => .ok st
  | n + 1, st =>
    match failedAttempts now error n st with
    | .ok st1 => failedAttempt st1 (now n) (error n)
    | .error err => .error err

/-- A fresh entry: every execution-bookkeeping field is at its default and no tagger is
attached. -/
def isFresh (e : ReplicatedMergeTreeLogEntry) : Prop :=
  e.currently_executing = false ∧ e.num_tries = 0 ∧ e.exception = none ∧
  e.last_attempt_time = 0 ∧ e.num_postponed = 0 ∧ e.postpone_reason = "" ∧
  e.last_postpone_time = 0 ∧ e.future_part_tagger = none

instance (e : ReplicatedMergeTreeLogEntry) : Decidable e.isFresh := by
  unfold isFresh; infer_instance

end ReplicatedMergeTreeLogEntry

/-! ### The text codec

Modelled from sections 4.2 and 6 of the specification; the bodies of `writeText`,
`readText`, `toString` and `parse` are not in the header. The text is a sequence of
lines separated by a line break: the format marker, the type token, then one
`key=value` line per field in the fixed order of section 6, numbers in decimal and flags
as `0` or `1`. The specification does not give the text of the marker, which is a
parameter here, and it shows a text without a marker being parsed, so that `parse`
accepts a text with or without the leading marker. A string value is written escaped, so
that it stays on its line and is read back as it was, as the round-trip law of section
4.2 requires: a backslash is written as two backslashes and a line break as a backslash
followed by the letter `n`. The range of a number is not checked when it is read: the
specification does not say what `parse` does with digits beyond the range of a
field. -/

/-- Modelled from the spec: the line break that separates two lines of a text. -/
def newline : Char := Char.ofNat 10

/-- Modelled from the spec: the character between a key and its value. -/
def equalsSign : Char := Char.ofNat 61

/-- Modelled from the spec: the sign of a negative number. -/
def minusSign : Char := Char.ofNat 45

/-- Modelled from the spec: the digit zero, also the flag `false`. -/
def zeroChar : Char := Char.ofNat 48

/-- Modelled from the spec: the digit one, also the flag `true`. -/
def oneChar : Char := Char.ofNat 49

/-- Modelled from the spec: the character that begins an escape. -/
def backslash : Char := Char.ofNat 92

/-- Modelled from the spec: the letter `n`, which after a backslash stands for a line
break. -/
def letterN : Char := Char.ofNat 110

/-- Modelled from the spec: a string value as it is written on its line: a line break
becomes a backslash and the letter `n`, a backslash becomes two backslashes. -/
def escape : List Char → List Char
  | [] => []
  | c :: cs =>
    if c = newline then backslash :: letterN :: escape cs
    else if c = backslash then backslash :: backslash :: escape cs
    else c :: escape cs

/-- Modelled from the spec: a string value read back from its line: a backslash and the
letter `n` give a line break, two backslashes give one; any other character stands
for itself. -/
def unescape : List Char → List Char
  | [] => []
  | [c] => [c]
  | c :: d :: rest =>
    if c = backslash then
      if d = letterN then newline :: unescape rest
      else if d = backslash then backslash :: unescape rest
      else c :: unescape (d :: rest)
    else c :: unescape (d :: rest)

/-- Modelled from the spec: the lines of a text, cut at every line break. -/
def splitLines : List Char → List (List Char)
  | [] => [[]]
  | c :: cs =>
    if c = newline then [] :: splitLines cs
    else
      match splitLines cs with
      | [] => [[c]]
      | l :: ls => (c :: l) :: ls

/-- Modelled from the spec: lines joined into one text, a line break between two
consecutive lines. -/
def joinLines : List (List Char) → List Char
  | [] => []
  | [l] => l
  | l :: l2 :: ls => l ++ newline :: joinLines (l2 :: ls)

/-- Modelled from the spec: the rest of a line after a given beginning, when the line
begins so. -/
def dropKey : List Char → List Char → Option (List Char)
  | [], line => some line
  | _ :: _, [] => none
  | k :: ks, c :: cs => if k = c then dropKey ks cs else none

/-- Modelled from the spec: the line `key=value`. -/
def fieldLine (key : String) (value : List Char) : List Char :=
  key.data ++ equalsSign :: value

/-- Modelled from the spec: the value of a line `key=value`, when the line has that
key. -/
def readField (key : String) (line : List Char) : Option (List Char) :=
  dropKey (key.data ++ [equalsSign]) line

/-- Modelled from the spec: the value of a decimal digit character. -/
def digitValue (c : Char) : Option Nat :=
  if 48 ≤ c.toNat ∧ c.toNat ≤ 57 then some (c.toNat - 48) else none

/-- Modelled from the spec: decimal digits read from left to right onto an
accumulator. -/
def readDigits : Nat → List Char → Option Nat
  | acc, [] => some acc
  | acc, c :: cs =>
    match digitValue c with
    | some d => readDigits (acc * 10 + d) cs
    | none => none

/-- Modelled from the spec: a natural number read from its decimal digits, at least
one. -/
def readNat : List Char → Option Nat
  | [] => none
  | c :: cs => readDigits 0 (c :: cs)

/-- Modelled from the spec: a natural number written in decimal. -/
def writeNat (n : Nat) : List Char := Nat.toDigits 10 n

/-- Modelled from the spec: an integer read from its decimal digits, with a leading
minus sign when negative. -/
def readInt : List Char → Option Int
  | [] => none
  | c :: cs =>
    if c = minusSign then (readNat cs).map (fun n => -(n : Int))
    else (readNat (c :: cs)).map (fun n => (n : Int))

/-- Modelled from the spec: an integer written in decimal, with a leading minus sign
when negative. -/
def writeInt : Int → List Char
  | Int.ofNat n => writeNat n
  | Int.negSucc n => minusSign :: writeNat (n + 1)

/-- Modelled from the spec: a flag written as `1` or `0`. -/
def writeFlag (b : Bool) : List Char := if b = true then [oneChar] else [zeroChar]

/-- Modelled from the spec: a flag read from `1` or `0`. -/
def readFlag (cs : List Char) : Option Bool :=
  if cs = [oneChar] then some true else if cs = [zeroChar] then some false else none

/-- Modelled from the spec: the type token of section 6 read back into a type; the four
tokens are the labels of `typeToString`. -/
def readType (tok : List Char) : Option LogEntryType :=
  if tok = "GET_PART".data then some LogEntryType.GET_PART
  else if tok = "MERGE_PARTS".data then some LogEntryType.MERGE_PARTS
  else if tok = "DROP_RANGE".data then some LogEntryType.DROP_RANGE
  else if tok = "ATTACH_PART".data then some LogEntryType.ATTACH_PART
  else none

/-- Modelled from the spec: the lines of a text after its leading format marker, or
all its lines when it does not begin with the marker. -/
def skipMarker (marker : String) : List (List Char) → List (List Char)
  | [] => []
  | l :: rest => if l = escape marker.data then rest else l :: rest

/-- The body of a text: its lines without the leading format marker. -/
def bodyLines (marker : String) (text : String) : List (List Char) :=
  skipMarker marker (splitLines text.data)

namespace ReplicatedMergeTreeLogEntryData

/-- Modelled from the spec: the lines of the fields that are written for one type only:
the count and the list of `parts_to_merge` for `MERGE_PARTS`, the `detach` flag for
`DROP_RANGE`, `source_part_name` and the `attach_unreplicated` flag for
`ATTACH_PART`. -/
def typeLines (r : ReplicatedMergeTreeLogEntryData) : List (List Char) :=
  match r.type with
  | .MERGE_PARTS =>
    fieldLine "parts_to_merge" (writeNat r.parts_to_merge.length) ::
      r.parts_to_merge.map (fun p => escape p.data)
  | .DROP_RANGE => [fieldLine "detach" (writeFlag r.detach)]
  | .ATTACH_PART =>
    [fieldLine "source_part_name" (escape r.source_part_name.data),
     fieldLine "attach_unreplicated" (writeFlag r.attach_unreplicated)]
  | _ => []

/-- Modelled from the spec: `writeText`, declared in the header without a body: the
persisted fields in the fixed order of section 6, after the format marker. The type
token is the label of `typeToString`, so that a record of type `EMPTY` is not
written. -/
def writeText (marker : String) (r : ReplicatedMergeTreeLogEntryData) :
    Except Exception (List Char) :=
  match r.typeToString with
  | .error err => .error err
  | .ok label =>
    .ok (joinLines (escape marker.data :: label.data ::
      fieldLine "source_replica" (escape r.source_replica.data) ::
      fieldLine "new_part_name" (escape r.new_part_name.data) ::
      (r.typeLines ++
        [fieldLine "create_time" (writeInt r.create_time),
         fieldLine "quorum" (writeNat r.quorum)])))

/-- Modelled from the spec: `serialize` of section 4.2 (`toString` in the header,
declared without a body): the text `writeText` produces. -/
def serialize (marker : String) (r : ReplicatedMergeTreeLogEntryData) :
    Except Exception String :=
  match r.writeText marker with
  | .ok cs => .ok (String.mk cs)
  | .error err => .error err

/-- Modelled from the spec: the fields that are read for one type only, from the lines
that follow `new_part_name`; the result is the record with these fields set and the
lines that remain. -/
def readTypeFields (r : ReplicatedMergeTreeLogEntryData) (lines : List (List Char)) :
    Option (ReplicatedMergeTreeLogEntryData × List (List Char)) :=
  match r.type, lines with
  | .GET_PART, rest => some (r, rest)
  | .MERGE_PARTS, count :: rest =>
    match (readField "parts_to_merge" count).bind readNat with
    | some n =>
      if n ≤ rest.length then
        some ({ r with parts_to_merge := (rest.take n).map (fun l => String.mk (unescape l)) },
          rest.drop n)
      else none
    | none => none
  | .DROP_RANGE, d :: rest =>
    match (readField "detach" d).bind readFlag with
    | some b => some ({ r with detach := b }, rest)
    | none => none
  | .ATTACH_PART, s :: a :: rest =>
    match readField "source_part_name" s,
      (readField "attach_unreplicated" a).bind readFlag with
    | some v, some b =>
      some ({ r with source_part_name := String.mk (unescape v), attach_unreplicated := b },
        rest)
    | _, _ => none
  | _, _ => none

/-- Modelled from the spec: `readText`, declared in the header without a body: the
fields read from the lines of the text in the fixed order of section 6; lines after
`quorum` are ignored. The result is `none` when a line is missing or is not the line
expected at its place. -/
def readText (marker : String) (text : List Char) :
    Option ReplicatedMergeTreeLogEntryData :=
  match skipMarker marker (splitLines text) with
  | tok :: sr :: npn :: rest =>
    match readType tok, readField "source_replica" sr, readField "new_part_name" npn with
    | some t, some a, some b =>
      match readTypeFields
          { type := t, source_replica := String.mk (unescape a),
            new_part_name := String.mk (unescape b) } rest with
      | some (r, ct :: q :: _) =>
        match (readField "create_time" ct).bind readInt,
          (readField "quorum" q).bind readNat with
        | some c, some n => some { r with create_time := c, quorum := n }
        | _, _ => none
      | _ => none
    | _, _, _ => none
  | _ => none

/-- Modelled from the spec: a valid record, by the validation of section 4.1 and the
invariant of section 3. The type is a real one, `new_part_name` is not empty,
`MERGE_PARTS` has at least one part to merge and `ATTACH_PART` has a non-empty
`source_part_name`; and the type determines which fields are meaningful: a field that
belongs to another type (`parts_to_merge` to `MERGE_PARTS`, `detach` to `DROP_RANGE`,
`source_part_name` and `attach_unreplicated` to `ATTACH_PART`) is at its default. -/
def isValid (r : ReplicatedMergeTreeLogEntryData) : Prop :=
  r.type ≠ LogEntryType.EMPTY ∧ r.new_part_name ≠ "" ∧
  (r.type = LogEntryType.MERGE_PARTS → r.parts_to_merge ≠ []) ∧
  (r.type = LogEntryType.ATTACH_PART → r.source_part_name ≠ "") ∧
  (r.type ≠ LogEntryType.MERGE_PARTS → r.parts_to_merge = []) ∧
  (r.type ≠ LogEntryType.DROP_RANGE → r.detach = false) ∧
  (r.type ≠ LogEntryType.ATTACH_PART →
    r.source_part_name = "" ∧ r.attach_unreplicated = false)

instance (r : ReplicatedMergeTreeLogEntryData) : Decidable r.isValid := by
  unfold isValid; infer_instance

/-- The persisted fields of two records are equal: type, `source_replica`,
`new_part_name`, `parts_to_merge`, `detach`, `source_part_name`, `attach_unreplicated`,
`create_time` and `quorum`. -/
def samePersisted (a b : ReplicatedMergeTreeLogEntryData) : Prop :=
  a.type = b.type ∧ a.source_replica = b.source_replica ∧
  a.new_part_name = b.new_part_name ∧ a.parts_to_merge = b.parts_to_merge ∧
  a.detach = b.detach ∧ a.source_part_name = b.source_part_name ∧
  a.attach_unreplicated = b.attach_unreplicated ∧ a.create_time = b.create_time ∧
  a.quorum = b.quorum

instance (a b : ReplicatedMergeTreeLogEntryData) : Decidable (a.samePersisted b) := by
  unfold samePersisted; infer_instance

/-- The fields of a record that its text carries: the persisted fields, where a field
that is written for another type only is at its default, and nothing else. -/
def persistedView (r : ReplicatedMergeTreeLogEntryData) : ReplicatedMergeTreeLogEntryData :=
  { type := r.type
    source_replica := r.source_replica
    new_part_name := r.new_part_name
    parts_to_merge := if r.type = LogEntryType.MERGE_PARTS then r.parts_to_merge else []
    detach := if r.type = LogEntryType.DROP_RANGE then r.detach else false
    source_part_name := if r.type = LogEntryType.ATTACH_PART then r.source_part_name else ""
    attach_unreplicated :=
      if r.type = LogEntryType.ATTACH_PART then r.attach_unreplicated else false
    create_time := r.create_time
    quorum := r.quorum }

end ReplicatedMergeTreeLogEntryData

/-- Modelled from the spec: the failure of `parse` of section 7: the text is not the
text of a valid record. -/
def malformedEntry : Exception :=
  ⟨"Malformed log entry", ErrorCodes.MalformedEntry⟩

/-- Modelled from the spec: `parse(s, stat)`, declared in the header without a body: the
fields are read from the text, the record is validated and gets the `znode_name` of
the source identity; every other field keeps its default. A text that cannot be read
or does not pass the validation fails with `MalformedEntry`. -/
def ReplicatedMergeTreeLogEntry.parse (marker : String) (s : String) (stat : Stat) :
    Except Exception ReplicatedMergeTreeLogEntry :=
  match ReplicatedMergeTreeLogEntryData.readText marker s.data with
  | none => .error malformedEntry
  | some r =>
    if r.isValid then
      .ok { toReplicatedMergeTreeLogEntryData := { r with znode_name := stat.znode_name } }
    else .error malformedEntry

/-- The type token of a text: the first line of its body, when it has one. -/
def typeToken (marker : String) (text : String) : Option (List Char) :=
  (bodyLines marker text).head?

/-- Some line of the text is a line `key=value` for the given key. -/
def hasField (key : String) (text : String) : Bool :=
  (splitLines text.data).any (fun line => (readField key line).isSome)

/-- Modelled from the spec: the keys of the fields that a text of a given type must
carry: the four common ones and those of the type. -/
def requiredKeys : LogEntryType → List String
  | .MERGE_PARTS =>
    ["source_replica", "new_part_name", "create_time", "quorum", "parts_to_merge"]
  | .DROP_RANGE => ["source_replica", "new_part_name", "create_time", "quorum", "detach"]
  | .ATTACH_PART =>
    ["source_replica", "new_part_name", "create_time", "quorum", "source_part_name",
     "attach_unreplicated"]
  | _ => ["source_replica", "new_part_name", "create_time", "quorum"]

/-! ### Example values -/

/-- A format marker for the examples. -/
def exampleMarker : String := "format version: 1"

/-- A source identity for the examples. -/
def exampleStat : Stat := ⟨"log-0000000007", 2⟩

/-- A `MERGE_PARTS` record with two parts, a negative creation time and a quorum. -/
def exampleMerge : ReplicatedMergeTreeLogEntryData :=
  { type := LogEntryType.MERGE_PARTS, source_replica := "r1", new_part_name := "merged_1_2",
    parts_to_merge := ["p1", "p2"], create_time := -5, quorum := 3 }

/-- A `GET_PART` record whose `detach` flag, a field of `DROP_RANGE`, is set. -/
def exampleGetDetach : ReplicatedMergeTreeLogEntryData :=
  { type := LogEntryType.GET_PART, new_part_name := "20230101_1_1_0", detach := true }

/-- A valid `ATTACH_PART` record whose `source_replica` holds a line break and whose
`source_part_name` holds a backslash. -/
def exampleAttachBreak : ReplicatedMergeTreeLogEntryData :=
  { type := LogEntryType.ATTACH_PART, new_part_name := "20230101_1_1_0",
    source_replica := String.mk [Char.ofNat 114, newline, Char.ofNat 49],
    source_part_name := String.mk [Char.ofNat 97, backslash, letterN],
    attach_unreplicated := true, create_time := 100 }

/-- A text whose type token is not a known one. -/
def exampleUnknownToken : String :=
  String.mk (joinLines ["FETCH_PART".data, "source_replica=r1".data, "new_part_name=p".data,
    "create_time=100".data, "quorum=0".data])

/-- A `GET_PART` text without its `quorum` line. -/
def exampleNoQuorum : String :=
  String.mk (joinLines ["GET_PART".data, "source_replica=r1".data, "new_part_name=p".data,
    "create_time=100".data])

/-- A `MERGE_PARTS` text with a count of zero parts. -/
def exampleEmptyMerge : String :=
  String.mk (joinLines ["MERGE_PARTS".data, "source_replica=r1".data,
    "new_part_name=merged_1_2".data, "parts_to_merge=0".data, "create_time=100".data,
    "quorum=0".data])

/-- A fresh `GET_PART` entry. -/
def exampleEntry : ReplicatedMergeTreeLogEntry :=
  { type := LogEntryType.GET_PART, new_part_name := "20230101_1_1_0" }

/-- The error of a failed fetch, for the examples. -/
def exampleFailure : Exception := ⟨"fetch failed", ErrorCodes.LOGICAL_ERROR⟩

/-- A storage whose future-parts set holds one other part. -/
def exampleStorage : StorageReplicatedMergeTree := { future_parts := {"p1"} }

/-- The text of the `GET_PART` scenario of section 8 of the specification. -/
def exampleScenarioGet : String :=
  String.mk (joinLines ["GET_PART".data, "source_replica=r1".data,
    "new_part_name=20230101_1_1_0".data, "create_time=100".data, "quorum=0".data])

/-- A `DROP_RANGE` text with the `detach` flag set, after a format marker and with a
trailing line that is not a known field. -/
def exampleScenarioDrop : String :=
  String.mk (joinLines [exampleMarker.data, "DROP_RANGE".data, "source_replica=r2".data,
    "new_part_name=20230101_0_9_999".data, "detach=1".data, "create_time=100".data,
    "quorum=0".data, "block_id=17".data])

/-! ## Theorems -/

/-! ### `typeToString` and the default record -/

/-- C1: on a record whose type is one of the four real variants `typeToString` returns
the label spelled as the variant, and two records with the same type get the same
result whatever their other fields hold. -/
theorem typeToString_real_variants (r : ReplicatedMergeTreeLogEntryData) :
    (r.type = LogEntryType.GET_PART → r.typeToString = .ok "GET_PART") ∧
    (r.type = LogEntryType.MERGE_PARTS → r.typeToString = .ok "MERGE_PARTS") ∧
    (r.type = LogEntryType.DROP_RANGE → r.typeToString = .ok "DROP_RANGE") ∧
    (r.type = LogEntryType.ATTACH_PART → r.typeToString = .ok "ATTACH_PART") ∧
    (∀ r2 : ReplicatedMergeTreeLogEntryData, r2.type = r.type →
      r2.typeToString = r.typeToString) := by
  refine ⟨?_, ?_, ?_, ?_, ?_⟩
  · intro h; simp [ReplicatedMergeTreeLogEntryData.typeToString, h]
  · intro h; simp [ReplicatedMergeTreeLogEntryData.typeToString, h]
  · intro h; simp [ReplicatedMergeTreeLogEntryData.typeToString, h]
  · intro h; simp [ReplicatedMergeTreeLogEntryData.typeToString, h]
  · intro r2 h; simp [ReplicatedMergeTreeLogEntryData.typeToString, h]

/-- Witness of C1 at a `MERGE_PARTS` record with other fields set, against a bare
`MERGE_PARTS` record. -/
theorem typeToString_real_variants_witness :
    exampleMerge.type = LogEntryType.MERGE_PARTS ∧
    exampleMerge.typeToString = .ok "MERGE_PARTS" ∧
    ({ type := LogEntryType.MERGE_PARTS } : ReplicatedMergeTreeLogEntryData).type =
      exampleMerge.type ∧
    ({ type := LogEntryType.MERGE_PARTS } : ReplicatedMergeTreeLogEntryData).typeToString =
      exampleMerge.typeToString :=
  ⟨rfl, (typeToString_real_variants exampleMerge).2.1 rfl, rfl,
    (typeToString_real_variants exampleMerge).2.2.2.2 _ rfl⟩

/-- C2: `typeToString` fails exactly on the type `EMPTY`, and then with the code
`LOGICAL_ERROR` and without a label; on the four real types it returns a label and does
not fail. -/
theorem typeToString_fails_iff_empty (r : ReplicatedMergeTreeLogEntryData) :
    ((∃ err, r.typeToString = .error err) ↔ r.type = LogEntryType.EMPTY) ∧
    ((∃ err, r.typeToString = .error err ∧ err.code = ErrorCodes.LOGICAL_ERROR) ↔
      r.type = LogEntryType.EMPTY) ∧
    ((∃ label, r.typeToString = .ok label) ↔
      (r.type = LogEntryType.GET_PART ∨ r.type = LogEntryType.MERGE_PARTS ∨
       r.type = LogEntryType.DROP_RANGE ∨ r.type = LogEntryType.ATTACH_PART)) := by
  cases h : r.type <;> simp [ReplicatedMergeTreeLogEntryData.typeToString, h]

/-- C3: in a fresh record, and in a fresh entry, every execution-bookkeeping field is at
its default. -/
theorem fresh_bookkeeping_defaults :
    ReplicatedMergeTreeLogEntryData.defaultConstructed.currently_executing = false ∧
    ReplicatedMergeTreeLogEntryData.defaultConstructed.num_tries = 0 ∧
    ReplicatedMergeTreeLogEntryData.defaultConstructed.num_postponed = 0 ∧
    ReplicatedMergeTreeLogEntryData.defaultConstructed.exception = none ∧
    ReplicatedMergeTreeLogEntryData.defaultConstructed.postpone_reason = "" ∧
    ReplicatedMergeTreeLogEntryData.defaultConstructed.last_attempt_time = 0 ∧
    ReplicatedMergeTreeLogEntryData.defaultConstructed.last_postpone_time = 0 ∧
    ReplicatedMergeTreeLogEntry.defaultConstructed.isFresh := by
  refine ⟨rfl, rfl, rfl, rfl, rfl, rfl, rfl, ?_⟩
  decide

/-- C9: a default-constructed record has type `EMPTY` and default action fields, so
`typeToString` fails on it with `LOGICAL_ERROR`; once a real type is assigned
`typeToString` returns a label. -/
theorem defaultConstructed_is_empty :
    ReplicatedMergeTreeLogEntryData.defaultConstructed.type = LogEntryType.EMPTY ∧
    ReplicatedMergeTreeLogEntryData.defaultConstructed.znode_name = "" ∧
    ReplicatedMergeTreeLogEntryData.defaultConstructed.source_replica = "" ∧
    ReplicatedMergeTreeLogEntryData.defaultConstructed.new_part_name = "" ∧
    ReplicatedMergeTreeLogEntryData.defaultConstructed.source_part_name = "" ∧
    ReplicatedMergeTreeLogEntryData.defaultConstructed.parts_to_merge = [] ∧
    ReplicatedMergeTreeLogEntryData.defaultConstructed.detach = false ∧
    ReplicatedMergeTreeLogEntryData.defaultConstructed.attach_unreplicated = false ∧
    ReplicatedMergeTreeLogEntryData.defaultConstructed.create_time = 0 ∧
    ReplicatedMergeTreeLogEntryData.defaultConstructed.quorum = 0 ∧
    ReplicatedMergeTreeLogEntryData.defaultConstructed.typeToString =
      .error ⟨"Unknown log entry type: 0", ErrorCodes.LOGICAL_ERROR⟩ ∧
    (∀ t : LogEntryType, t.isReal →
      ∃ label, ({ ReplicatedMergeTreeLogEntryData.defaultConstructed with type := t }
        : ReplicatedMergeTreeLogEntryData).typeToString = .ok label) := by
  refine ⟨rfl, rfl, rfl, rfl, rfl, rfl, rfl, rfl, rfl, rfl, ?_, ?_⟩
  · have hmsg : "Unknown log entry type: " ++ toString (0 : Nat) =
        "Unknown log entry type: 0" := by decide
    simp only [ReplicatedMergeTreeLogEntryData.typeToString,
      ReplicatedMergeTreeLogEntryData.defaultConstructed, LogEntryType.toNat, hmsg]
  · intro t ht
    cases t
    · exact absurd rfl ht
    · exact ⟨_, rfl⟩
    · exact ⟨_, rfl⟩
    · exact ⟨_, rfl⟩
    · exact ⟨_, rfl⟩

/-- Witness of C9: after `DROP_RANGE` is assigned to a default-constructed record,
`typeToString` returns a label. -/
theorem defaultConstructed_is_empty_witness :
    LogEntryType.DROP_RANGE.isReal ∧
    ∃ label, ({ ReplicatedMergeTreeLogEntryData.defaultConstructed with
        type := LogEntryType.DROP_RANGE } : ReplicatedMergeTreeLogEntryData).typeToString =
      .ok label :=
  ⟨by decide, defaultConstructed_is_empty.2.2.2.2.2.2.2.2.2.2.2 LogEntryType.DROP_RANGE
    (by decide)⟩

/-- C10: on records of real types `typeToString` gives equal results exactly for equal
types, and the type is a function of the label. -/
theorem typeToString_injective (r1 r2 : ReplicatedMergeTreeLogEntryData)
    (h1 : r1.type.isReal) (h2 : r2.type.isReal) :
    (r1.typeToString = r2.typeToString ↔ r1.type = r2.type) ∧
    (∃ recover : String → LogEntryType,
      ∀ r : ReplicatedMergeTreeLogEntryData, r.type.isReal →
        ∀ label, r.typeToString = .ok label → recover label = r.type) := by
  constructor
  · unfold LogEntryType.isReal at h1 h2
    cases h : r1.type <;> cases h' : r2.type <;>
      simp_all [ReplicatedMergeTreeLogEntryData.typeToString]
  · refine ⟨fun label =>
      if label = "GET_PART" then LogEntryType.GET_PART
      else if label = "MERGE_PARTS" then LogEntryType.MERGE_PARTS
      else if label = "DROP_RANGE" then LogEntryType.DROP_RANGE
      else LogEntryType.ATTACH_PART, ?_⟩
    intro r hr label hl
    unfold LogEntryType.isReal at hr
    cases h : r.type <;>
      simp_all [ReplicatedMergeTreeLogEntryData.typeToString] <;> subst hl <;> decide

/-- Witness of C10 at a `GET_PART` record and a `MERGE_PARTS` record. -/
theorem typeToString_injective_witness :
    exampleGetDetach.type.isReal ∧ exampleMerge.type.isReal ∧
    (exampleGetDetach.typeToString = exampleMerge.typeToString ↔
      exampleGetDetach.type = exampleMerge.type) :=
  ⟨by decide, by decide,
    (typeToString_injective exampleGetDetach exampleMerge (by decide) (by decide)).1⟩

/-! ### The future-part tagger and the attempt bookkeeping -/

theorem unregister_register (storage : StorageReplicatedMergeTree) (p : String)
    (h : p ∉ storage.future_parts) :
    (storage.registerFuturePart p).unregisterFuturePart p = storage := by
  cases storage
  simp only [StorageReplicatedMergeTree.registerFuturePart,
    StorageReplicatedMergeTree.unregisterFuturePart] at h ⊢
  rw [Finset.erase_insert h]

theorem beginAttempt_ok (e : ReplicatedMergeTreeLogEntry)
    (storage : StorageReplicatedMergeTree) (now : Int)
    (hexec : e.currently_executing = false)
    (hfree : e.new_part_name ∉ storage.future_parts) :
    e.beginAttempt storage now =
      .ok ({ e with
              currently_executing := true
              num_tries := e.num_tries + 1
              last_attempt_time := now
              future_part_tagger := some ⟨e.new_part_name⟩ },
           storage.registerFuturePart e.new_part_name) := by
  simp [ReplicatedMergeTreeLogEntry.beginAttempt, hexec,
    StorageReplicatedMergeTree.hasFuturePart, hfree,
    ReplicatedMergeTreeLogEntry.tagPartAsFuture, FuturePartTagger.construct]

theorem failedAttempt_ok (e : ReplicatedMergeTreeLogEntry)
    (storage : StorageReplicatedMergeTree) (now : Int) (error : Exception)
    (hexec : e.currently_executing = false)
    (hfree : e.new_part_name ∉ storage.future_parts) :
    ReplicatedMergeTreeLogEntry.failedAttempt (e, storage) now error =
      .ok ({ e with
              currently_executing := false
              num_tries := e.num_tries + 1
              last_attempt_time := now
              exception := some error
              future_part_tagger := none }, storage) := by
  simp only [ReplicatedMergeTreeLogEntry.failedAttempt]
  rw [beginAttempt_ok e storage now hexec hfree]
  simp [ReplicatedMergeTreeLogEntry.recordFailure, ReplicatedMergeTreeLogEntry.releaseTagger,
    FuturePartTagger.destroy, unregister_register storage _ hfree]

theorem failedAttempts_ok (now : Nat → Int) (error : Nat → Exception)
    (e : ReplicatedMergeTreeLogEntry) (storage : StorageReplicatedMergeTree)
    (hexec : e.currently_executing = false) (htries : e.num_tries = 0)
    (hfree : e.new_part_name ∉ storage.future_parts) (n : Nat) :
    ∃ e2 : ReplicatedMergeTreeLogEntry,
      ReplicatedMergeTreeLogEntry.failedAttempts now error n (e, storage) = .ok (e2, storage) ∧
      e2.currently_executing = false ∧ e2.new_part_name = e.new_part_name ∧
      e2.future_part_tagger = (if n = 0 then e.future_part_tagger else none) ∧
      e2.num_tries = n := by
  induction n with
  | zero => exact ⟨e, rfl, hexec, rfl, rfl, htries⟩
  | succ k ih =>
    obtain ⟨e1, hrun, hexec1, hname1, -, htries1⟩ := ih
    have hfree1 : e1.new_part_name ∉ storage.future_parts := by rw [hname1]; exact hfree
    refine ⟨{ e1 with
                currently_executing := false
                num_tries := e1.num_tries + 1
                last_attempt_time := now k
                exception := some (error k)
                future_part_tagger := none }, ?_, ?_, ?_, ?_, ?_⟩
    · simp only [ReplicatedMergeTreeLogEntry.failedAttempts, hrun]
      exact failedAttempt_ok e1 storage (now k) (error k) hexec1 hfree1
    · rfl
    · exact hname1
    · simp
    · show e1.num_tries + 1 = k + 1
      rw [htries1]

theorem beginAttempt_num_tries (e : ReplicatedMergeTreeLogEntry)
    (storage : StorageReplicatedMergeTree) (now : Int)
    (started : ReplicatedMergeTreeLogEntry × StorageReplicatedMergeTree)
    (h : e.beginAttempt storage now = .ok started) :
    started.1.num_tries = e.num_tries + 1 := by
  unfold ReplicatedMergeTreeLogEntry.beginAttempt at h
  split at h
  · cases h
  · split at h
    · cases h
    · cases h
      rfl

theorem recordFailure_num_tries (e : ReplicatedMergeTreeLogEntry)
    (storage : StorageReplicatedMergeTree) (error : Exception) :
    (e.recordFailure storage error).1.num_tries = e.num_tries := by
  unfold ReplicatedMergeTreeLogEntry.recordFailure ReplicatedMergeTreeLogEntry.releaseTagger
  cases e.future_part_tagger <;> rfl

theorem recordSuccess_num_tries (e : ReplicatedMergeTreeLogEntry)
    (storage : StorageReplicatedMergeTree) :
    (e.recordSuccess storage).1.num_tries = e.num_tries := by
  unfold ReplicatedMergeTreeLogEntry.recordSuccess ReplicatedMergeTreeLogEntry.releaseTagger
  cases e.future_part_tagger <;> rfl

theorem failedAttempts_num_tries (now : Nat → Int) (error : Nat → Exception)
    (st : ReplicatedMergeTreeLogEntry × StorageReplicatedMergeTree)
    (htries : st.1.num_tries = 0) (n : Nat) :
    ∀ result, ReplicatedMergeTreeLogEntry.failedAttempts now error n st = .ok result →
      result.1.num_tries = n := by
  induction n with
  | zero =>
    intro result h
    simp only [ReplicatedMergeTreeLogEntry.failedAttempts, Except.ok.injEq] at h
    subst h
    exact htries
  | succ k ih =>
    intro result h
    simp only [ReplicatedMergeTreeLogEntry.failedAttempts] at h
    split at h
    · rename_i st1 hst1
      simp only [ReplicatedMergeTreeLogEntry.failedAttempt] at h
      split at h
      · rename_i started hstart
        simp only [Except.ok.injEq] at h
        subst h
        rw [recordFailure_num_tries, beginAttempt_num_tries _ _ _ _ hstart, ih st1 hst1]
      · cases h
    · cases h

/-- C5: when `p` is not in the future-parts set, constructing a tagger for `p` puts `p`
in the set and destroying the tagger gives the storage back as it was; a guarded scope
ends with the storage as it was whether its action returns or fails, and so does an
attempt that ends with `recordFailure`, while one that ends with `recordSuccess` leaves
the future-parts set as it was. -/
theorem futurePartTagger_scoped (p : String) (storage : StorageReplicatedMergeTree)
    (h : p ∉ storage.future_parts) :
    p ∈ (FuturePartTagger.construct p storage).2.future_parts ∧
    (FuturePartTagger.construct p storage).1.destroy (FuturePartTagger.construct p storage).2
      = storage ∧
    (∀ (α : Type) (action : StorageReplicatedMergeTree → Except Exception α),
      (withFuturePartTagger p storage action).2 = storage) ∧
    (∀ (e : ReplicatedMergeTreeLogEntry) (now : Int) (error : Exception),
      e.new_part_name = p → e.currently_executing = false →
      ∃ started, e.beginAttempt storage now = .ok started ∧
        p ∈ started.2.future_parts ∧
        (ReplicatedMergeTreeLogEntry.recordSuccess started.1 started.2).2.future_parts =
          storage.future_parts ∧
        (ReplicatedMergeTreeLogEntry.recordFailure started.1 started.2 error).2 = storage) := by
  have hrel := unregister_register storage p h
  refine ⟨?_, ?_, ?_, ?_⟩
  · simp [FuturePartTagger.construct, StorageReplicatedMergeTree.registerFuturePart]
  · simpa [FuturePartTagger.construct, FuturePartTagger.destroy] using hrel
  · intro α action
    simp only [withFuturePartTagger, FuturePartTagger.construct, FuturePartTagger.destroy]
    split <;> exact hrel
  · intro e now error hname hexec
    subst hname
    refine ⟨_, beginAttempt_ok e storage now hexec h, ?_, ?_, ?_⟩
    · simp [StorageReplicatedMergeTree.registerFuturePart]
    · simp [ReplicatedMergeTreeLogEntry.recordSuccess,
        ReplicatedMergeTreeLogEntry.releaseTagger, FuturePartTagger.destroy, hrel,
        ReplicatedMergeTreeLogEntry.addResultToVirtualParts,
        StorageReplicatedMergeTree.addVirtualPart]
    · simp [ReplicatedMergeTreeLogEntry.recordFailure,
        ReplicatedMergeTreeLogEntry.releaseTagger, FuturePartTagger.destroy, hrel]

/-- Witness of C5 for the part `merged_1_2` and a future-parts set that holds another
part. -/
theorem futurePartTagger_scoped_witness :
    "merged_1_2" ∉ exampleStorage.future_parts ∧
    "merged_1_2" ∈ (FuturePartTagger.construct "merged_1_2" exampleStorage).2.future_parts ∧
    (FuturePartTagger.construct "merged_1_2" exampleStorage).1.destroy
      (FuturePartTagger.construct "merged_1_2" exampleStorage).2 = exampleStorage :=
  ⟨by decide, (futurePartTagger_scoped "merged_1_2" exampleStorage (by decide)).1,
    (futurePartTagger_scoped "merged_1_2" exampleStorage (by decide)).2.1⟩

/-- C7: `recordPostponed` leaves `num_tries` and `currently_executing` as they were,
increases `num_postponed` by exactly one and sets `postpone_reason` to the given reason
(and `last_postpone_time` to the time of the call, nothing else). -/
theorem recordPostponed_effect (e : ReplicatedMergeTreeLogEntry) (reason : String)
    (now : Int) :
    (e.recordPostponed reason now).num_tries = e.num_tries ∧
    (e.recordPostponed reason now).currently_executing = e.currently_executing ∧
    (e.recordPostponed reason now).num_postponed = e.num_postponed + 1 ∧
    (e.recordPostponed reason now).postpone_reason = reason ∧
    (e.recordPostponed reason now).last_postpone_time = now ∧
    e.recordPostponed reason now =
      { e with num_postponed := e.num_postponed + 1, postpone_reason := reason,
               last_postpone_time := now } :=
  ⟨rfl, rfl, rfl, rfl, rfl, rfl⟩

/-- C8: from a fresh entry, `N` attempts that each begin with `beginAttempt` and end with
`recordFailure` leave `num_tries` equal to `N`, and they all go through when the output
name of the entry is not reserved; no operation on an entry lowers `num_tries`:
`beginAttempt` raises it by one and the other operations leave it as it was. -/
theorem num_tries_after_failed_attempts (now : Nat → Int) (error : Nat → Exception)
    (e : ReplicatedMergeTreeLogEntry) (storage : StorageReplicatedMergeTree)
    (hfresh : e.isFresh) (N : Nat) :
    (∀ result, ReplicatedMergeTreeLogEntry.failedAttempts now error N (e, storage) =
        .ok result → result.1.num_tries = N) ∧
    (e.new_part_name ∉ storage.future_parts →
      ∃ e2 : ReplicatedMergeTreeLogEntry,
        ReplicatedMergeTreeLogEntry.failedAttempts now error N (e, storage) =
          .ok (e2, storage) ∧ e2.num_tries = N) ∧
    (∀ (e1 : ReplicatedMergeTreeLogEntry) (s1 : StorageReplicatedMergeTree) (t : Int)
        (started : ReplicatedMergeTreeLogEntry × StorageReplicatedMergeTree),
      e1.beginAttempt s1 t = .ok started →
        started.1.num_tries = e1.num_tries + 1 ∧ e1.num_tries ≤ started.1.num_tries) ∧
    (∀ (e1 : ReplicatedMergeTreeLogEntry) (s1 : StorageReplicatedMergeTree) (err : Exception)
        (reason : String) (t : Int),
      (e1.recordSuccess s1).1.num_tries = e1.num_tries ∧
      (e1.recordFailure s1 err).1.num_tries = e1.num_tries ∧
      (e1.recordPostponed reason t).num_tries = e1.num_tries ∧
      (e1.tagPartAsFuture s1).1.num_tries = e1.num_tries ∧
      (e1.releaseTagger s1).1.num_tries = e1.num_tries) := by
  refine ⟨?_, ?_, ?_, ?_⟩
  · intro result hrun
    exact failedAttempts_num_tries now error (e, storage) hfresh.2.1 N result hrun
  · intro hfree
    obtain ⟨e2, hrun, -, -, -, htries⟩ :=
      failedAttempts_ok now error e storage hfresh.1 hfresh.2.1 hfree N
    exact ⟨e2, hrun, htries⟩
  · intro e1 s1 t started hstart
    have h := beginAttempt_num_tries e1 s1 t started hstart
    exact ⟨h, by omega⟩
  · intro e1 s1 err reason t
    refine ⟨recordSuccess_num_tries e1 s1, recordFailure_num_tries e1 s1 err, rfl, rfl, ?_⟩
    unfold ReplicatedMergeTreeLogEntry.releaseTagger
    cases e1.future_part_tagger <;> rfl

/-- Witness of C8: three failed attempts on a fresh `GET_PART` entry. -/
theorem num_tries_after_failed_attempts_witness :
    exampleEntry.isFresh ∧
    exampleEntry.new_part_name ∉ ({} : StorageReplicatedMergeTree).future_parts ∧
    ∃ e2 : ReplicatedMergeTreeLogEntry,
      ReplicatedMergeTreeLogEntry.failedAttempts (fun i => 100 + i) (fun _ => exampleFailure) 3
        (exampleEntry, {}) = .ok (e2, {}) ∧ e2.num_tries = 3 :=
  ⟨by decide, by decide,
    (num_tries_after_failed_attempts (fun i => 100 + i) (fun _ => exampleFailure)
      exampleEntry {} (by decide) 3).2.1 (by decide)⟩

/-! ### Lines, keys and numbers -/

theorem splitLines_single (l : List Char) (h : newline ∉ l) : splitLines l = [l] := by
  induction l with
  | nil => rfl
  | cons c cs ih =>
    have hc : c ≠ newline := fun hEq => h (by simp [hEq])
    have hcs : newline ∉ cs := fun hm => h (List.mem_cons_of_mem _ hm)
    simp [splitLines, hc, ih hcs]

theorem splitLines_append (l rest : List Char) (h : newline ∉ l) :
    splitLines (l ++ newline :: rest) = l :: splitLines rest := by
  induction l with
  | nil => simp [splitLines]
  | cons c cs ih =>
    have hc : c ≠ newline := fun hEq => h (by simp [hEq])
    have hcs : newline ∉ cs := fun hm => h (List.mem_cons_of_mem _ hm)
    simp [splitLines, hc, ih hcs]

theorem splitLines_joinLines (ls : List (List Char)) (hne : ls ≠ [])
    (h : ∀ l ∈ ls, newline ∉ l) : splitLines (joinLines ls) = ls := by
  induction ls with
  | nil => exact absurd rfl hne
  | cons l rest ih =>
    cases rest with
    | nil => exact splitLines_single l (h l (by simp))
    | cons l2 rest2 =>
      have hl : newline ∉ l := h l (by simp)
      have hrest : ∀ x ∈ l2 :: rest2, newline ∉ x := fun x hx => h x (List.mem_cons_of_mem _ hx)
      simp only [joinLines]
      rw [splitLines_append l _ hl, ih (by simp) hrest]

theorem skipMarker_subset (marker : String) (ls : List (List Char)) :
    ∀ l ∈ skipMarker marker ls, l ∈ ls := by
  intro l hl
  cases ls with
  | nil => simp [skipMarker] at hl
  | cons a rest =>
    simp only [skipMarker] at hl
    split at hl
    · exact List.mem_cons_of_mem _ hl
    · exact hl

theorem dropKey_append (k v : List Char) : dropKey k (k ++ v) = some v := by
  induction k with
  | nil => cases v <;> rfl
  | cons c cs ih => simp [dropKey, ih]

theorem readField_fieldLine (key : String) (v : List Char) :
    readField key (fieldLine key v) = some v := by
  have h : fieldLine key v = (key.data ++ [equalsSign]) ++ v := by simp [fieldLine]
  rw [readField, h, dropKey_append]

theorem digitValue_digitChar (k : Nat) (hk : k < 10) :
    digitValue (Nat.digitChar k) = some k := by
  interval_cases k <;> decide

theorem readDigits_toDigitsCore (fuel : Nat) :
    ∀ (n : Nat) (ds : List Char), n < fuel →
      readDigits 0 (Nat.toDigitsCore 10 fuel n ds) = readDigits n ds := by
  induction fuel with
  | zero => intro n ds h; omega
  | succ f ih =>
    intro n ds hn
    have hd : digitValue (Nat.digitChar (n % 10)) = some (n % 10) :=
      digitValue_digitChar _ (Nat.mod_lt _ (by decide))
    simp only [Nat.toDigitsCore]
    split
    · rename_i hzero
      have hmod : n % 10 = n := by omega
      rw [hmod] at hd
      simp [readDigits, hd, hmod]
    · rename_i hpos
      rw [ih (n / 10) _ (by omega)]
      have : n / 10 * 10 + n % 10 = n := by omega
      simp [readDigits, hd, this]

theorem toDigitsCore_ne_nil (fuel n : Nat) (ds : List Char) (h : ds ≠ [] ∨ 0 < fuel) :
    Nat.toDigitsCore 10 fuel n ds ≠ [] := by
  induction fuel generalizing n ds with
  | zero =>
    rcases h with h | h
    · simpa [Nat.toDigitsCore] using h
    · omega
  | succ f ih =>
    simp only [Nat.toDigitsCore]
    split
    · simp
    · exact ih _ _ (Or.inl (by simp))

theorem readNat_writeNat (n : Nat) : readNat (writeNat n) = some n := by
  have hne : writeNat n ≠ [] := toDigitsCore_ne_nil (n + 1) n [] (Or.inr (by omega))
  have hrd : readDigits 0 (writeNat n) = some n := by
    have := readDigits_toDigitsCore (n + 1) n [] (by omega)
    simpa [writeNat, Nat.toDigits, readDigits] using this
  cases hw : writeNat n with
  | nil => exact absurd hw hne
  | cons c cs => rw [hw] at hrd; simpa [readNat] using hrd

theorem readDigits_all_digits (cs : List Char) :
    ∀ (acc v : Nat), readDigits acc cs = some v → ∀ c ∈ cs, (digitValue c).isSome := by
  induction cs with
  | nil => intro acc v _ c hc; simp at hc
  | cons d ds ih =>
    intro acc v h c hc
    simp only [readDigits] at h
    cases hd : digitValue d with
    | none => simp [hd] at h
    | some k =>
      rw [hd] at h
      rcases List.mem_cons.mp hc with rfl | hmem
      · simp [hd]
      · exact ih _ _ h c hmem

theorem writeNat_all_digits (n : Nat) : ∀ c ∈ writeNat n, (digitValue c).isSome := by
  have hrd : readDigits 0 (writeNat n) = some n := by
    have := readDigits_toDigitsCore (n + 1) n [] (by omega)
    simpa [writeNat, Nat.toDigits, readDigits] using this
  exact readDigits_all_digits _ _ _ hrd

theorem newline_not_mem_writeNat (n : Nat) : newline ∉ writeNat n := by
  intro h
  have := writeNat_all_digits n newline h
  revert this
  decide

theorem readInt_writeInt (i : Int) : readInt (writeInt i) = some i := by
  cases i with
  | ofNat n =>
    have hr := readNat_writeNat n
    have hd := writeNat_all_digits n
    simp only [writeInt]
    cases hw : writeNat n with
    | nil => rw [hw] at hr; simp [readNat] at hr
    | cons c cs =>
      rw [hw] at hr hd
      have hc : c ≠ minusSign := by
        intro hEq
        have := hd c (by simp)
        rw [hEq] at this
        revert this
        decide
      simp [readInt, hc, hr]
  | negSucc n =>
    simp only [writeInt, readInt, if_true, readNat_writeNat]
    simp [Int.negSucc_eq]

theorem newline_not_mem_writeInt (i : Int) : newline ∉ writeInt i := by
  cases i with
  | ofNat n => exact newline_not_mem_writeNat n
  | negSucc n =>
    simp only [writeInt]
    intro h
    rcases List.mem_cons.mp h with h | h
    · revert h; decide
    · exact newline_not_mem_writeNat _ h

theorem readFlag_writeFlag (b : Bool) : readFlag (writeFlag b) = some b := by
  cases b <;> decide

theorem newline_not_mem_writeFlag (b : Bool) : newline ∉ writeFlag b := by
  cases b <;> decide

theorem newline_not_mem_fieldLine (key : String) (v : List Char)
    (hk : newline ∉ key.data) (hv : newline ∉ v) : newline ∉ fieldLine key v := by
  simp only [fieldLine, List.mem_append, List.mem_cons, not_or]
  exact ⟨hk, by decide, hv⟩

theorem newline_not_mem_escape (cs : List Char) : newline ∉ escape cs := by
  induction cs with
  | nil => simp [escape]
  | cons c cs ih =>
    unfold escape
    split
    · simp only [List.mem_cons, not_or]
      exact ⟨by decide, by decide, ih⟩
    · split
      · simp only [List.mem_cons, not_or]
        exact ⟨by decide, by decide, ih⟩
      · rename_i hc _
        simp only [List.mem_cons, not_or]
        exact ⟨fun h => hc h.symm, ih⟩

theorem unescape_cons_of_ne (c : Char) (l : List Char) (hc : c ≠ backslash) :
    unescape (c :: l) = c :: unescape l := by
  cases l with
  | nil => rfl
  | cons d rest => simp [unescape, hc]

theorem unescape_escape (cs : List Char) : unescape (escape cs) = cs := by
  induction cs with
  | nil => rfl
  | cons c cs ih =>
    unfold escape
    split
    · rename_i hc
      have hn : letterN = letterN := rfl
      simp [unescape, ih, hc]
    · split
      · rename_i hc
        have hbn : backslash ≠ letterN := by decide
        simp [unescape, ih, hc, hbn]
      · rename_i hc
        rw [unescape_cons_of_ne c _ hc, ih]

theorem mk_unescape_escape (s : String) : String.mk (unescape (escape s.data)) = s := by
  rw [unescape_escape]

/-! ### The round trip of the text codec -/

theorem readType_GET_PART : readType "GET_PART".data = some LogEntryType.GET_PART := by decide

theorem readType_MERGE_PARTS : readType "MERGE_PARTS".data = some LogEntryType.MERGE_PARTS := by
  decide

theorem readType_DROP_RANGE : readType "DROP_RANGE".data = some LogEntryType.DROP_RANGE := by
  decide

theorem readType_ATTACH_PART : readType "ATTACH_PART".data = some LogEntryType.ATTACH_PART := by
  decide

theorem skipMarker_cons_marker (marker : String) (rest : List (List Char)) :
    skipMarker marker (escape marker.data :: rest) = rest := by
  simp [skipMarker]

theorem typeLines_newline_free (r : ReplicatedMergeTreeLogEntryData) :
    ∀ l ∈ r.typeLines, newline ∉ l := by
  intro l hl
  unfold ReplicatedMergeTreeLogEntryData.typeLines at hl
  cases ht : r.type <;> rw [ht] at hl <;> simp only [List.mem_cons, List.mem_map,
    List.not_mem_nil, or_false] at hl
  · rcases hl with rfl | ⟨p, -, rfl⟩
    · exact newline_not_mem_fieldLine _ _ (by decide) (newline_not_mem_writeNat _)
    · exact newline_not_mem_escape _
  · subst hl
    exact newline_not_mem_fieldLine _ _ (by decide) (newline_not_mem_writeFlag _)
  · rcases hl with rfl | rfl
    · exact newline_not_mem_fieldLine _ _ (by decide) (newline_not_mem_escape _)
    · exact newline_not_mem_fieldLine _ _ (by decide) (newline_not_mem_writeFlag _)

theorem map_unescape_escape (ps : List String) :
    List.map (fun l => String.mk (unescape l)) (List.map (fun p => escape p.data) ps) = ps := by
  induction ps with
  | nil => rfl
  | cons p ps ih => simp only [List.map_cons, ih, mk_unescape_escape]

theorem readTypeFields_typeLines (r base : ReplicatedMergeTreeLogEntryData)
    (tail : List (List Char)) (hreal : r.type ≠ LogEntryType.EMPTY)
    (hbase : base.type = r.type) :
    ReplicatedMergeTreeLogEntryData.readTypeFields base (r.typeLines ++ tail) =
      some ({ base with
                parts_to_merge :=
                  if r.type = LogEntryType.MERGE_PARTS then r.parts_to_merge
                  else base.parts_to_merge
                detach := if r.type = LogEntryType.DROP_RANGE then r.detach else base.detach
                source_part_name :=
                  if r.type = LogEntryType.ATTACH_PART then r.source_part_name
                  else base.source_part_name
                attach_unreplicated :=
                  if r.type = LogEntryType.ATTACH_PART then r.attach_unreplicated
                  else base.attach_unreplicated }, tail) := by
  cases ht : r.type
  · exact absurd ht hreal
  · rw [ht] at hbase
    cases base
    simp_all [ReplicatedMergeTreeLogEntryData.readTypeFields,
      ReplicatedMergeTreeLogEntryData.typeLines]
  · rw [ht] at hbase
    have hmap := map_unescape_escape r.parts_to_merge
    simp only [ReplicatedMergeTreeLogEntryData.readTypeFields,
      ReplicatedMergeTreeLogEntryData.typeLines, ht, hbase, List.cons_append,
      readField_fieldLine]
    rw [← List.length_map r.parts_to_merge (fun p => escape p.data)]
    generalize List.map (fun p => escape p.data) r.parts_to_merge = L at hmap
    simp [readNat_writeNat, List.take_left, List.drop_left, hmap]
  · rw [ht] at hbase
    simp [ReplicatedMergeTreeLogEntryData.readTypeFields,
      ReplicatedMergeTreeLogEntryData.typeLines, ht, hbase, readField_fieldLine,
      readFlag_writeFlag]
  · rw [ht] at hbase
    simp [ReplicatedMergeTreeLogEntryData.readTypeFields,
      ReplicatedMergeTreeLogEntryData.typeLines, ht, hbase, readField_fieldLine,
      readFlag_writeFlag, unescape_escape]

theorem readText_writeText (marker : String) (r : ReplicatedMergeTreeLogEntryData)
    (cs : List Char) (hw : r.writeText marker = .ok cs) :
    ReplicatedMergeTreeLogEntryData.readText marker cs = some r.persistedView := by
  have hreal : r.type ≠ LogEntryType.EMPTY := by
    intro h
    simp [ReplicatedMergeTreeLogEntryData.writeText,
      ReplicatedMergeTreeLogEntryData.typeToString, h] at hw
  have htl := typeLines_newline_free r
  -- the label written is the token of the type
  obtain ⟨label, hlabel, htok, hnl⟩ : ∃ label : String, r.typeToString = .ok label ∧
      readType label.data = some r.type ∧ newline ∉ label.data := by
    cases ht : r.type
    · exact absurd ht hreal
    · exact ⟨"GET_PART", by simp [ReplicatedMergeTreeLogEntryData.typeToString, ht],
        readType_GET_PART, by decide⟩
    · exact ⟨"MERGE_PARTS", by simp [ReplicatedMergeTreeLogEntryData.typeToString, ht],
        readType_MERGE_PARTS, by decide⟩
    · exact ⟨"DROP_RANGE", by simp [ReplicatedMergeTreeLogEntryData.typeToString, ht],
        readType_DROP_RANGE, by decide⟩
    · exact ⟨"ATTACH_PART", by simp [ReplicatedMergeTreeLogEntryData.typeToString, ht],
        readType_ATTACH_PART, by decide⟩
  simp only [ReplicatedMergeTreeLogEntryData.writeText, hlabel, Except.ok.injEq] at hw
  subst hw
  have hlines : ∀ l ∈ escape marker.data :: label.data ::
      fieldLine "source_replica" (escape r.source_replica.data) ::
      fieldLine "new_part_name" (escape r.new_part_name.data) ::
      (r.typeLines ++
        [fieldLine "create_time" (writeInt r.create_time),
         fieldLine "quorum" (writeNat r.quorum)]), newline ∉ l := by
    intro l hl
    simp only [List.mem_cons, List.mem_append, List.not_mem_nil, or_false] at hl
    rcases hl with rfl | rfl | rfl | rfl | hl | rfl | rfl
    · exact newline_not_mem_escape _
    · exact hnl
    · exact newline_not_mem_fieldLine _ _ (by decide) (newline_not_mem_escape _)
    · exact newline_not_mem_fieldLine _ _ (by decide) (newline_not_mem_escape _)
    · exact htl l hl
    · exact newline_not_mem_fieldLine _ _ (by decide) (newline_not_mem_writeInt _)
    · exact newline_not_mem_fieldLine _ _ (by decide) (newline_not_mem_writeNat _)
  unfold ReplicatedMergeTreeLogEntryData.readText
  rw [splitLines_joinLines _ (by simp) hlines, skipMarker_cons_marker]
  simp only [htok, readField_fieldLine, unescape_escape]
  rw [readTypeFields_typeLines r
    { type := r.type, source_replica := String.mk r.source_replica.data,
      new_part_name := String.mk r.new_part_name.data } _ hreal rfl]
  simp [readField_fieldLine, readInt_writeInt, readNat_writeNat,
    ReplicatedMergeTreeLogEntryData.persistedView]

theorem isValid_persistedView (r : ReplicatedMergeTreeLogEntryData) (h : r.isValid) :
    r.persistedView.isValid := by
  obtain ⟨h1, h2, h3, h4, h5, h6, h7⟩ := h
  refine ⟨h1, h2, ?_, ?_, ?_, ?_, ?_⟩
  · intro ht
    have ht2 : r.type = LogEntryType.MERGE_PARTS := ht
    simpa [ReplicatedMergeTreeLogEntryData.persistedView, ht2] using h3 ht2
  · intro ht
    have ht2 : r.type = LogEntryType.ATTACH_PART := ht
    simpa [ReplicatedMergeTreeLogEntryData.persistedView, ht2] using h4 ht2
  · intro ht
    have ht2 : r.type ≠ LogEntryType.MERGE_PARTS := ht
    simp [ReplicatedMergeTreeLogEntryData.persistedView, ht2]
  · intro ht
    have ht2 : r.type ≠ LogEntryType.DROP_RANGE := ht
    simp [ReplicatedMergeTreeLogEntryData.persistedView, ht2]
  · intro ht
    have ht2 : r.type ≠ LogEntryType.ATTACH_PART := ht
    simp [ReplicatedMergeTreeLogEntryData.persistedView, ht2]

theorem samePersisted_persistedView (r : ReplicatedMergeTreeLogEntryData) (h : r.isValid) :
    r.persistedView.samePersisted r := by
  obtain ⟨-, -, -, -, h5, h6, h7⟩ := h
  refine ⟨rfl, rfl, rfl, ?_, ?_, ?_, ?_, rfl, rfl⟩
  · by_cases ht : r.type = LogEntryType.MERGE_PARTS
    · simp [ReplicatedMergeTreeLogEntryData.persistedView, ht]
    · simp [ReplicatedMergeTreeLogEntryData.persistedView, ht, h5 ht]
  · by_cases ht : r.type = LogEntryType.DROP_RANGE
    · simp [ReplicatedMergeTreeLogEntryData.persistedView, ht]
    · simp [ReplicatedMergeTreeLogEntryData.persistedView, ht, h6 ht]
  · by_cases ht : r.type = LogEntryType.ATTACH_PART
    · simp [ReplicatedMergeTreeLogEntryData.persistedView, ht]
    · simp [ReplicatedMergeTreeLogEntryData.persistedView, ht, (h7 ht).1]
  · by_cases ht : r.type = LogEntryType.ATTACH_PART
    · simp [ReplicatedMergeTreeLogEntryData.persistedView, ht]
    · simp [ReplicatedMergeTreeLogEntryData.persistedView, ht, (h7 ht).2]

theorem parse_serialize (marker : String) (r : ReplicatedMergeTreeLogEntryData) (stat : Stat)
    (hvalid : r.isValid) :
    ∃ text, r.serialize marker = .ok text ∧
      ReplicatedMergeTreeLogEntry.parse marker text stat =
        .ok { toReplicatedMergeTreeLogEntryData :=
                { r.persistedView with znode_name := stat.znode_name } } := by
  obtain ⟨cs, hcs⟩ : ∃ cs, r.writeText marker = .ok cs := by
    have hreal := hvalid.1
    cases ht : r.type <;>
      simp_all [ReplicatedMergeTreeLogEntryData.writeText,
        ReplicatedMergeTreeLogEntryData.typeToString]
  refine ⟨String.mk cs, by simp [ReplicatedMergeTreeLogEntryData.serialize, hcs], ?_⟩
  have hread := readText_writeText marker r cs hcs
  simp only [ReplicatedMergeTreeLogEntry.parse, hread, isValid_persistedView r hvalid, if_true]

theorem parse_scenario_get_part :
    ReplicatedMergeTreeLogEntry.parse exampleMarker exampleScenarioGet exampleStat =
      .ok { znode_name := "log-0000000007", type := LogEntryType.GET_PART,
            source_replica := "r1", new_part_name := "20230101_1_1_0", create_time := 100,
            quorum := 0 } := by
  decide

theorem parse_scenario_drop_range :
    ReplicatedMergeTreeLogEntry.parse exampleMarker exampleScenarioDrop exampleStat =
      .ok { znode_name := "log-0000000007", type := LogEntryType.DROP_RANGE,
            source_replica := "r2", new_part_name := "20230101_0_9_999", detach := true,
            create_time := 100, quorum := 0 } := by
  decide

/-! ### Texts that `parse` rejects -/

theorem readType_some_mem (tok : List Char) (t : LogEntryType) (h : readType tok = some t) :
    some tok ∈ [some "GET_PART".data, some "MERGE_PARTS".data, some "DROP_RANGE".data,
      some "ATTACH_PART".data] ∧ t ≠ LogEntryType.EMPTY := by
  unfold readType at h
  split at h
  · rename_i hEq; cases h; simp [hEq]
  · split at h
    · rename_i hEq; cases h; simp [hEq]
    · split at h
      · rename_i hEq; cases h; simp [hEq]
      · split at h
        · rename_i hEq; cases h; simp [hEq]
        · cases h

theorem bind_isSome {α β : Type} (o : Option α) (f : α → Option β) (v : β)
    (h : o.bind f = some v) : o.isSome = true := by
  cases o with
  | none => simp at h
  | some a => rfl

theorem hasField_of_mem (key : String) (text : String) (line : List Char)
    (hmem : line ∈ splitLines text.data) (hkey : (readField key line).isSome = true) :
    hasField key text = true := by
  simp only [hasField, List.any_eq_true]
  exact ⟨line, hmem, hkey⟩

theorem readTypeFields_some (base r1 : ReplicatedMergeTreeLogEntryData)
    (lines rest : List (List Char))
    (h : ReplicatedMergeTreeLogEntryData.readTypeFields base lines = some (r1, rest)) :
    r1.type = base.type ∧ (∀ l ∈ rest, l ∈ lines) ∧
    (base.type = LogEntryType.MERGE_PARTS →
      ∃ count more n, lines = count :: more ∧
        (readField "parts_to_merge" count).bind readNat = some n ∧
        r1.parts_to_merge = (more.take n).map (fun l => String.mk (unescape l))) ∧
    (base.type = LogEntryType.DROP_RANGE →
      ∃ d ∈ lines, (readField "detach" d).isSome = true) ∧
    (base.type = LogEntryType.ATTACH_PART →
      ∃ s ∈ lines, ∃ a ∈ lines, (readField "source_part_name" s).isSome = true ∧
        (readField "attach_unreplicated" a).isSome = true) := by
  unfold ReplicatedMergeTreeLogEntryData.readTypeFields at h
  split at h
  · rename_i ht
    cases h
    simp [ht]
  · rename_i count more ht
    split at h
    · rename_i n hn
      split at h
      · cases h
        refine ⟨rfl, ?_, ?_, ?_, ?_⟩
        · intro l hl
          exact List.mem_cons_of_mem _ (List.mem_of_mem_drop hl)
        · intro _
          exact ⟨count, more, n, rfl, hn, rfl⟩
        · intro hc; rw [ht] at hc; cases hc
        · intro hc; rw [ht] at hc; cases hc
      · cases h
    · cases h
  · rename_i d more ht
    split at h
    · rename_i b hb
      cases h
      refine ⟨rfl, ?_, ?_, ?_, ?_⟩
      · intro l hl
        exact List.mem_cons_of_mem _ hl
      · intro hc; rw [ht] at hc; cases hc
      · intro _
        exact ⟨d, by simp, bind_isSome _ _ _ hb⟩
      · intro hc; rw [ht] at hc; cases hc
    · cases h
  · rename_i s a more ht
    split at h
    · rename_i v b hv hb
      cases h
      refine ⟨rfl, ?_, ?_, ?_, ?_⟩
      · intro l hl
        exact List.mem_cons_of_mem _ (List.mem_cons_of_mem _ hl)
      · intro hc; rw [ht] at hc; cases hc
      · intro hc; rw [ht] at hc; cases hc
      · intro _
        exact ⟨s, by simp, a, by simp, by simp [hv], bind_isSome _ _ _ hb⟩
    · cases h
  · cases h

theorem readText_some (marker : String) (text : List Char)
    (r : ReplicatedMergeTreeLogEntryData)
    (h : ReplicatedMergeTreeLogEntryData.readText marker text = some r) :
    ∃ tok sr npn rest t a b r1 ct q tail c n,
      skipMarker marker (splitLines text) = tok :: sr :: npn :: rest ∧
      readType tok = some t ∧ readField "source_replica" sr = some a ∧
      readField "new_part_name" npn = some b ∧
      ReplicatedMergeTreeLogEntryData.readTypeFields
        { type := t, source_replica := String.mk (unescape a),
          new_part_name := String.mk (unescape b) } rest =
          some (r1, ct :: q :: tail) ∧
      (readField "create_time" ct).bind readInt = some c ∧
      (readField "quorum" q).bind readNat = some n ∧
      r = { r1 with create_time := c, quorum := n } := by
  unfold ReplicatedMergeTreeLogEntryData.readText at h
  split at h
  · rename_i tok sr npn rest hbody
    split at h
    · rename_i t a b ht ha hb
      split at h
      · rename_i r1 ct q tail hr1
        split at h
        · rename_i c n hc hn
          cases h
          exact ⟨tok, sr, npn, rest, t, a, b, r1, ct, q, tail, c, n, hbody, ht, ha, hb, hr1,
            hc, hn, rfl⟩
        · cases h
      · cases h
    · cases h
  · cases h

theorem readText_some_fields (marker : String) (text : String)
    (r : ReplicatedMergeTreeLogEntryData)
    (h : ReplicatedMergeTreeLogEntryData.readText marker text.data = some r) :
    (typeToken marker text).bind readType = some r.type ∧
    ∀ key ∈ requiredKeys r.type, hasField key text = true := by
  obtain ⟨tok, sr, npn, rest, t, a, b, r1, ct, q, tail, c, n, hbody, ht, ha, hb, hr1, hc, hn,
    hr⟩ := readText_some marker text.data r h
  obtain ⟨htype, hsub, hmerge, hdrop, hattach⟩ := readTypeFields_some _ _ _ _ hr1
  have hrt : r.type = t := by rw [hr]; exact htype
  have hbodysub : ∀ l ∈ tok :: sr :: npn :: rest, l ∈ splitLines text.data := by
    intro l hl
    rw [← hbody] at hl
    exact skipMarker_subset marker _ l hl
  have hrestsub : ∀ l ∈ rest, l ∈ splitLines text.data := fun l hl =>
    hbodysub l (by simp [hl])
  have hsr : hasField "source_replica" text = true :=
    hasField_of_mem _ _ sr (hbodysub sr (by simp)) (by simp [ha])
  have hnpn : hasField "new_part_name" text = true :=
    hasField_of_mem _ _ npn (hbodysub npn (by simp)) (by simp [hb])
  have hct : hasField "create_time" text = true :=
    hasField_of_mem _ _ ct (hrestsub ct (hsub ct (by simp))) (bind_isSome _ _ _ hc)
  have hq : hasField "quorum" text = true :=
    hasField_of_mem _ _ q (hrestsub q (hsub q (by simp))) (bind_isSome _ _ _ hn)
  refine ⟨?_, ?_⟩
  · simp [typeToken, bodyLines, hbody, ht, hrt]
  · intro key hkey
    rw [hrt] at hkey
    cases t
    · exact absurd rfl (readType_some_mem tok _ ht).2
    · simp only [requiredKeys, List.mem_cons, List.not_mem_nil, or_false] at hkey
      rcases hkey with rfl | rfl | rfl | rfl
      · exact hsr
      · exact hnpn
      · exact hct
      · exact hq
    · obtain ⟨count, more, k, hlines, hk, -⟩ := hmerge rfl
      simp only [requiredKeys, List.mem_cons, List.not_mem_nil, or_false] at hkey
      rcases hkey with rfl | rfl | rfl | rfl | rfl
      · exact hsr
      · exact hnpn
      · exact hct
      · exact hq
      · exact hasField_of_mem _ _ count (hrestsub count (by simp [hlines]))
          (bind_isSome _ _ _ hk)
    · obtain ⟨d, hd, hdk⟩ := hdrop rfl
      simp only [requiredKeys, List.mem_cons, List.not_mem_nil, or_false] at hkey
      rcases hkey with rfl | rfl | rfl | rfl | rfl
      · exact hsr
      · exact hnpn
      · exact hct
      · exact hq
      · exact hasField_of_mem _ _ d (hrestsub d hd) hdk
    · obtain ⟨s, hs, a2, ha2, hsk, hak⟩ := hattach rfl
      simp only [requiredKeys, List.mem_cons, List.not_mem_nil, or_false] at hkey
      rcases hkey with rfl | rfl | rfl | rfl | rfl | rfl
      · exact hsr
      · exact hnpn
      · exact hct
      · exact hq
      · exact hasField_of_mem _ _ s (hrestsub s hs) hsk
      · exact hasField_of_mem _ _ a2 (hrestsub a2 ha2) hak

theorem parse_error_of_invalid (marker : String) (text : String) (stat : Stat)
    (h : ∀ r, ReplicatedMergeTreeLogEntryData.readText marker text.data = some r → ¬ r.isValid) :
    ReplicatedMergeTreeLogEntry.parse marker text stat = .error malformedEntry := by
  unfold ReplicatedMergeTreeLogEntry.parse
  cases hr : ReplicatedMergeTreeLogEntryData.readText marker text.data with
  | none => rfl
  | some r => simp [h r hr]

/-- C6: `parse` fails with `MalformedEntry`, and so returns no record, on every text
whose type token is none of the four known tokens, on every text that has no line for
one of the fields its type requires, and on every text of a `MERGE_PARTS` entry whose
`parts_to_merge` count is zero; `parse` has no other failure than `MalformedEntry`. -/
theorem parse_rejects_malformed (marker : String) (text : String) (stat : Stat) :
    (typeToken marker text ∉ [some "GET_PART".data, some "MERGE_PARTS".data,
        some "DROP_RANGE".data, some "ATTACH_PART".data] →
      ReplicatedMergeTreeLogEntry.parse marker text stat = .error malformedEntry) ∧
    (∀ t key, (typeToken marker text).bind readType = some t → key ∈ requiredKeys t →
      hasField key text = false →
      ReplicatedMergeTreeLogEntry.parse marker text stat = .error malformedEntry) ∧
    (∀ sr npn v rest,
      bodyLines marker text =
        "MERGE_PARTS".data :: sr :: npn :: fieldLine "parts_to_merge" v :: rest →
      readNat v = some 0 →
      ReplicatedMergeTreeLogEntry.parse marker text stat = .error malformedEntry) ∧
    malformedEntry.code = ErrorCodes.MalformedEntry ∧
    (∀ err, ReplicatedMergeTreeLogEntry.parse marker text stat = .error err →
      err.code = ErrorCodes.MalformedEntry) := by
  refine ⟨?_, ?_, ?_, rfl, ?_⟩
  · intro htok
    apply parse_error_of_invalid
    intro r hr
    exfalso
    apply htok
    obtain ⟨tok, sr, npn, rest, t, a, b, r1, ct, q, tail, c, n, hbody, ht, -⟩ :=
      readText_some marker text.data r hr
    have : typeToken marker text = some tok := by simp [typeToken, bodyLines, hbody]
    rw [this]
    exact (readType_some_mem tok t ht).1
  · intro t key ht hkey hmissing
    apply parse_error_of_invalid
    intro r hr
    exfalso
    obtain ⟨htype, hfields⟩ := readText_some_fields marker text r hr
    rw [ht] at htype
    cases htype
    rw [hfields key hkey] at hmissing
    cases hmissing
  · intro sr npn v rest hbody hzero
    apply parse_error_of_invalid
    intro r hr hvalid
    obtain ⟨tok, sr2, npn2, rest2, t, a, b, r1, ct, q, tail, c, n, hbody2, ht, -, -, hr1, -, -,
      hreq⟩ := readText_some marker text.data r hr
    have hb : skipMarker marker (splitLines text.data) =
        "MERGE_PARTS".data :: sr :: npn :: fieldLine "parts_to_merge" v :: rest := hbody
    rw [hb] at hbody2
    simp only [List.cons.injEq] at hbody2
    obtain ⟨htok, -, -, hrest⟩ := hbody2
    rw [← htok, readType_MERGE_PARTS] at ht
    cases ht
    obtain ⟨htype, -, hmerge, -, -⟩ := readTypeFields_some _ _ _ _ hr1
    obtain ⟨count, more, k, hlines, hk, hparts⟩ := hmerge rfl
    rw [← hrest] at hlines
    simp only [List.cons.injEq] at hlines
    obtain ⟨hcount, -⟩ := hlines
    rw [← hcount, readField_fieldLine] at hk
    have hk2 : readNat v = some k := hk
    rw [hzero] at hk2
    cases hk2
    have h1 : r.type = LogEntryType.MERGE_PARTS := by rw [hreq]; exact htype
    have h2 : r.parts_to_merge = [] := by rw [hreq]; simpa using hparts
    exact hvalid.2.2.1 h1 h2
  · intro err herr
    unfold ReplicatedMergeTreeLogEntry.parse at herr
    split at herr
    · cases herr; rfl
    · split at herr
      · cases herr
      · cases herr; rfl

/-- Witness of C6: a text with the token `FETCH_PART`, a `GET_PART` text without its
`quorum` line and a `MERGE_PARTS` text with a count of zero parts are all rejected. -/
theorem parse_rejects_malformed_witness :
    (typeToken exampleMarker exampleUnknownToken ∉ [some "GET_PART".data,
        some "MERGE_PARTS".data, some "DROP_RANGE".data, some "ATTACH_PART".data] ∧
      ReplicatedMergeTreeLogEntry.parse exampleMarker exampleUnknownToken exampleStat =
        .error malformedEntry) ∧
    (hasField "quorum" exampleNoQuorum = false ∧
      ReplicatedMergeTreeLogEntry.parse exampleMarker exampleNoQuorum exampleStat =
        .error malformedEntry) ∧
    (readNat [zeroChar] = some 0 ∧
      ReplicatedMergeTreeLogEntry.parse exampleMarker exampleEmptyMerge exampleStat =
        .error malformedEntry) :=
  ⟨⟨by decide,
      (parse_rejects_malformed exampleMarker exampleUnknownToken exampleStat).1 (by decide)⟩,
    ⟨by decide,
      (parse_rejects_malformed exampleMarker exampleNoQuorum exampleStat).2.1
        LogEntryType.GET_PART "quorum" (by decide) (by decide) (by decide)⟩,
    ⟨by decide,
      (parse_rejects_malformed exampleMarker exampleEmptyMerge exampleStat).2.2.1
        "source_replica=r1".data "new_part_name=merged_1_2".data [zeroChar]
        ["create_time=100".data, "quorum=0".data] (by decide) (by decide)⟩⟩

end DB
